import Mathlib

/-!
Verification of the IFRS9 ECL engine (src/src/ecl_engine.py).

The arithmetic of the engine is embedded over ℚ (the spec describes the
computation in real arithmetic; the binary floats of Python are modelled by
exact rationals).  the Python builtin `round(x, 2)` is modelled as
`⌊100*x + 1/2⌋ / 100` (round to nearest, ties up; none of the verified
concrete inputs fall on a tie).  `dict` iteration order in Python is
insertion order, so the scenario tables become association lists in
their source order.
-/

namespace IFRS9

/-- Python `round(x, 2)`: round to two decimal places. -/
def round2 (x : ℚ) : ℚ := (round (100 * x) : ℤ) / 100

/-- Module constant `SCENARIO_WEIGHTS` (insertion order preserved). -/
def SCENARIO_WEIGHTS : List (String × ℚ) :=
  [("Optimistic", 30/100), ("Base", 40/100), ("Downturn", 30/100)]

/-- Module constant `PD_MULTIPLIERS` (insertion order preserved). -/
def PD_MULTIPLIERS : List (String × ℚ) :=
  [("Optimistic", 80/100), ("Base", 1), ("Downturn", 150/100)]

/-- `assign_stage(initial_pd, current_pd)` from ecl_engine.py:
Stage 3 if `current_pd > 0.5`; Stage 2 if `initial_pd > 0` and
`current_pd / initial_pd > 3.0`; Stage 1 otherwise.  The Python stage is an
`int`, embedded as ℤ. -/
def assign_stage (initial_pd current_pd : ℚ) : ℤ :=
  if current_pd > 1/2 then 3
  else if initial_pd > 0 ∧ current_pd / initial_pd > 3 then 2
  else 1

/-- One iteration of the lifetime-ECL loop body of `calculate_ecl`:
state is `(ecl, cum_survival)`, `t` is the loop variable. -/
def eclStep (pd_adj lgd ead eir : ℚ) (st : ℚ × ℚ) (t : ℕ) : ℚ × ℚ :=
  let marginal_pd := st.2 * pd_adj
  let discount_factor := 1 / (1 + eir) ^ t
  (st.1 + marginal_pd * lgd * ead * discount_factor, st.2 * (1 - pd_adj))

/-- The `for t in range(1, maturity_years + 1)` loop of `calculate_ecl`,
started from `ecl = 0.0`, `cum_survival = 1.0`; the Python
`range(1, m + 1)` is the list `[1, …, m]` (empty when `m ≤ 0`). -/
def lifetime_ecl (pd_adj lgd ead eir : ℚ) (maturity_years : ℤ) : ℚ :=
  (((List.range maturity_years.toNat).map (· + 1)).foldl
    (eclStep pd_adj lgd ead eir) (0, 1)).1

/-- `calculate_ecl(stage, current_pd, lgd, ead, maturity_years, eir,
pd_multiplier)` from ecl_engine.py. -/
def calculate_ecl (stage : ℤ) (current_pd lgd ead : ℚ) (maturity_years : ℤ)
    (eir pd_multiplier : ℚ) : ℚ :=
  let pd_adj := min (current_pd * pd_multiplier) 1
  if stage = 1 then round2 (pd_adj * lgd * ead)
  else round2 (lifetime_ecl pd_adj lgd ead eir maturity_years)

/-- `calculate_weighted_ecl(...)` from ecl_engine.py: iterate the
`SCENARIO_WEIGHTS` dict in insertion order, look each scenario up in
`PD_MULTIPLIERS`, and accumulate `weight * calculate_ecl(...)`.  Every key
of `SCENARIO_WEIGHTS` is present in `PD_MULTIPLIERS`, so the `getD 0`
default is never reached at this configuration. -/
def calculate_weighted_ecl (stage : ℤ) (current_pd lgd ead : ℚ)
    (maturity_years : ℤ) (eir : ℚ) : ℚ :=
  round2 (SCENARIO_WEIGHTS.foldl
    (fun acc sw =>
      acc + sw.2 * calculate_ecl stage current_pd lgd ead maturity_years eir
        ((PD_MULTIPLIERS.lookup sw.1).getD 0)) 0)

/-- A row of the loaded portfolio (the dict built by `load_portfolio`). -/
structure Loan where
  loan_id : String
  sector : String
  principal : ℚ
  initial_pd : ℚ
  current_pd : ℚ
  maturity_years : ℤ
  eir : ℚ
  lgd : ℚ
deriving DecidableEq, Repr

/-- A row of the results produced by `process_portfolio`. -/
structure ClassificationResult where
  loan_id : String
  sector : String
  principal : ℚ
  initial_pd : ℚ
  current_pd : ℚ
  maturity_years : ℤ
  eir : ℚ
  lgd : ℚ
  stage : ℤ
  ecl : ℚ
deriving DecidableEq, Repr

/-- The result record `process_portfolio` appends for one loan. -/
def resultOfLoan (loan : Loan) : ClassificationResult :=
  let stage := assign_stage loan.initial_pd loan.current_pd
  let ecl := calculate_weighted_ecl stage loan.current_pd loan.lgd
    loan.principal loan.maturity_years loan.eir
  { loan_id := loan.loan_id
    sector := loan.sector
    principal := loan.principal
    initial_pd := loan.initial_pd
    current_pd := loan.current_pd
    maturity_years := loan.maturity_years
    eir := loan.eir
    lgd := loan.lgd
    stage := stage
    ecl := ecl }

/-- `process_portfolio(portfolio)` from ecl_engine.py: one result appended
per loan, in input order. -/
def process_portfolio (portfolio : List Loan) : List ClassificationResult :=
  portfolio.map resultOfLoan

/-! Helper lemmas. -/

lemma lookup_Optimistic : PD_MULTIPLIERS.lookup "Optimistic" = some (80/100) := rfl

lemma lookup_Base : PD_MULTIPLIERS.lookup "Base" = some 1 := rfl

lemma lookup_Downturn : PD_MULTIPLIERS.lookup "Downturn" = some (150/100) := rfl

/-- The lifetime-ECL loop in closed form: after `n` iterations the
accumulator holds the geometric survival sum and `cum_survival = (1-p)^n`. -/
lemma eclLoop_closed (p l e r : ℚ) (n : ℕ) :
    ((List.range n).map (· + 1)).foldl (eclStep p l e r) (0, 1) =
      (∑ t in Finset.range n, (1 - p) ^ t * p * l * e * (1 / (1 + r) ^ (t + 1)),
        (1 - p) ^ n) := by
  induction n with
  | zero => simp
  | succ n ih =>
    rw [List.range_succ, List.map_append, List.foldl_append, ih]
    simp only [List.map_cons, List.map_nil, List.foldl_cons, List.foldl_nil, eclStep,
      Prod.mk.injEq]
    constructor
    · rw [Finset.sum_range_succ]
    · rw [pow_succ]

/-- `lifetime_ecl` equals the sum of discounted marginal losses with
explicit survival powers. -/
lemma lifetime_ecl_closed (p l e r : ℚ) (m : ℤ) :
    lifetime_ecl p l e r m =
      ∑ t in Finset.range m.toNat, (1 - p) ^ t * p * l * e * (1 / (1 + r) ^ (t + 1)) := by
  unfold lifetime_ecl
  rw [eclLoop_closed]

lemma round2_zero : round2 0 = 0 := by simp [round2]

lemma round2_mono {x y : ℚ} (h : x ≤ y) : round2 x ≤ round2 y := by
  unfold round2
  rw [div_le_div_iff_of_pos_right (by norm_num : (0:ℚ) < 100)]
  have : round (100 * x) ≤ round (100 * y) := by
    rw [round_eq, round_eq]
    exact Int.floor_mono (by linarith)
  exact_mod_cast this

lemma round2_nonneg {x : ℚ} (h : 0 ≤ x) : 0 ≤ round2 x := by
  have := round2_mono h
  rwa [round2_zero] at this

/-- A left fold that only accumulates sums is the sum of the mapped list. -/
lemma foldl_add_eq (g : String × ℚ → ℚ) (l : List (String × ℚ)) (a : ℚ) :
    l.foldl (fun acc sw => acc + g sw) a = a + (l.map g).sum := by
  induction l generalizing a with
  | nil => simp
  | cons x xs ih => simp [ih, add_assoc]

/-- `assign_stage` only ever returns 1, 2 or 3. -/
lemma assign_stage_cases (initial_pd current_pd : ℚ) :
    assign_stage initial_pd current_pd = 1 ∨ assign_stage initial_pd current_pd = 2 ∨
      assign_stage initial_pd current_pd = 3 := by
  unfold assign_stage
  split_ifs <;> simp

lemma lifetime_ecl_nonneg {p l e r : ℚ} (hp0 : 0 ≤ p) (hp1 : p ≤ 1) (hl : 0 ≤ l)
    (he : 0 ≤ e) (hr : 0 ≤ r) (m : ℤ) : 0 ≤ lifetime_ecl p l e r m := by
  rw [lifetime_ecl_closed]
  refine Finset.sum_nonneg fun t _ => ?_
  have h1 : (0:ℚ) ≤ (1 - p) ^ t := pow_nonneg (by linarith) t
  have h2 : (0:ℚ) < (1 + r) ^ (t + 1) := pow_pos (by linarith) _
  have h3 : (0:ℚ) ≤ 1 / (1 + r) ^ (t + 1) := le_of_lt (by positivity)
  exact mul_nonneg (mul_nonneg (mul_nonneg (mul_nonneg h1 hp0) hl) he) h3

lemma calculate_ecl_nonneg (stage : ℤ) {current_pd lgd ead eir pd_multiplier : ℚ}
    (maturity_years : ℤ) (hcp : 0 ≤ current_pd) (hl : 0 ≤ lgd) (he : 0 ≤ ead)
    (hr : 0 ≤ eir) (hm : 0 ≤ pd_multiplier) :
    0 ≤ calculate_ecl stage current_pd lgd ead maturity_years eir pd_multiplier := by
  unfold calculate_ecl
  have hp0 : 0 ≤ min (current_pd * pd_multiplier) 1 :=
    le_min (mul_nonneg hcp hm) zero_le_one
  have hp1 : min (current_pd * pd_multiplier) 1 ≤ 1 := min_le_right _ _
  split_ifs
  · exact round2_nonneg (mul_nonneg (mul_nonneg hp0 hl) he)
  · exact round2_nonneg (lifetime_ecl_nonneg hp0 hp1 hl he hr _)

lemma calculate_weighted_ecl_nonneg (stage : ℤ) {current_pd lgd ead eir : ℚ}
    (maturity_years : ℤ) (hcp : 0 ≤ current_pd) (hl : 0 ≤ lgd) (he : 0 ≤ ead)
    (hr : 0 ≤ eir) :
    0 ≤ calculate_weighted_ecl stage current_pd lgd ead maturity_years eir := by
  simp only [calculate_weighted_ecl, SCENARIO_WEIGHTS, List.foldl,
    lookup_Optimistic, lookup_Base, lookup_Downturn, Option.getD_some]
  refine round2_nonneg ?_
  have e1 := calculate_ecl_nonneg stage maturity_years hcp hl he hr
    (by norm_num : (0:ℚ) ≤ 80/100)
  have e2 := calculate_ecl_nonneg stage maturity_years hcp hl he hr
    (by norm_num : (0:ℚ) ≤ 1)
  have e3 := calculate_ecl_nonneg stage maturity_years hcp hl he hr
    (by norm_num : (0:ℚ) ≤ 150/100)
  nlinarith

/-- The loan validity predicate of the data model in the spec. -/
def validLoan (l : Loan) : Prop :=
  0 < l.principal ∧ 0 < l.initial_pd ∧ l.initial_pd ≤ 1 ∧ 0 < l.current_pd ∧
    l.current_pd ≤ 1 ∧ 1 ≤ l.maturity_years ∧ 0 ≤ l.eir ∧ 0 ≤ l.lgd ∧ l.lgd ≤ 1

/-- A concrete valid loan used by witnesses. -/
def sampleLoan : Loan :=
  { loan_id := "L1", sector := "Retail", principal := 1000, initial_pd := 1/10,
    current_pd := 1/10, maturity_years := 1, eir := 0, lgd := 1/2 }

/-- The loop of `calculate_weighted_ecl` with the two module-level dicts
taken as parameters instead of read as globals; a scenario named in the
weights but absent from the multipliers (a Python `KeyError`) surfaces as
`none`. -/
def calculate_weighted_ecl_with (weights mults : List (String × ℚ)) (stage : ℤ)
    (current_pd lgd ead : ℚ) (maturity_years : ℤ) (eir : ℚ) : Option ℚ :=
  (weights.foldl
    (fun acc sw => acc.bind (fun a => (mults.lookup sw.1).map (fun m =>
      a + sw.2 * calculate_ecl stage current_pd lgd ead maturity_years eir m)))
    (some 0)).map round2

/-- `process_portfolio` over parameterized scenario dicts: processing
stops at the first loan whose weighted-ECL computation raises. -/
def process_portfolio_with (weights mults : List (String × ℚ)) :
    List Loan → Option (List ClassificationResult)
  | [] => some []
  | loan :: rest =>
    (calculate_weighted_ecl_with weights mults
        (assign_stage loan.initial_pd loan.current_pd) loan.current_pd loan.lgd
        loan.principal loan.maturity_years loan.eir).bind
      (fun ecl => (process_portfolio_with weights mults rest).map (fun rs =>
        { loan_id := loan.loan_id
          sector := loan.sector
          principal := loan.principal
          initial_pd := loan.initial_pd
          current_pd := loan.current_pd
          maturity_years := loan.maturity_years
          eir := loan.eir
          lgd := loan.lgd
          stage := assign_stage loan.initial_pd loan.current_pd
          ecl := ecl } :: rs))

/-- An invalid scenario weighting: the weights sum to 0.9, not 1. -/
def badWeights : List (String × ℚ) :=
  [("Optimistic", 30/100), ("Base", 30/100), ("Downturn", 30/100)]

/-- A multiplier table missing the "Base" scenario named in the weights. -/
def missingMultipliers : List (String × ℚ) :=
  [("Optimistic", 80/100), ("Downturn", 150/100)]

lemma weighted_with_badWeights (stage : ℤ) (current_pd lgd ead : ℚ)
    (maturity_years : ℤ) (eir : ℚ) :
    calculate_weighted_ecl_with badWeights PD_MULTIPLIERS stage current_pd lgd ead
        maturity_years eir =
      some (round2 (0 + 30/100 * calculate_ecl stage current_pd lgd ead maturity_years
          eir (80/100)
        + 30/100 * calculate_ecl stage current_pd lgd ead maturity_years eir 1
        + 30/100 * calculate_ecl stage current_pd lgd ead maturity_years eir (150/100))) :=
  rfl

lemma weighted_with_missing (stage : ℤ) (current_pd lgd ead : ℚ)
    (maturity_years : ℤ) (eir : ℚ) :
    calculate_weighted_ecl_with SCENARIO_WEIGHTS missingMultipliers stage current_pd
      lgd ead maturity_years eir = none :=
  rfl

/-! Claims. -/

/-- Claim C1: `assign_stage` returns 3 iff `current_pd > 0.50` (strict, so
`current_pd = 0.50` is not Stage 3); otherwise 2 iff `initial_pd > 0` and
`current_pd / initial_pd > 3.0` (strict, so a ratio of exactly 3 is Stage
1); otherwise 1, in particular whenever `initial_pd = 0` and the Stage-3
rule did not fire. -/
theorem C1_assign_stage_rules (initial_pd current_pd : ℚ) :
    (1/2 < current_pd → assign_stage initial_pd current_pd = 3) ∧
    (current_pd ≤ 1/2 → 0 < initial_pd → 3 < current_pd / initial_pd →
      assign_stage initial_pd current_pd = 2) ∧
    (current_pd ≤ 1/2 → 0 < initial_pd → current_pd / initial_pd = 3 →
      assign_stage initial_pd current_pd = 1) ∧
    (current_pd = 1/2 → assign_stage initial_pd current_pd ≠ 3) ∧
    (initial_pd = 0 → current_pd ≤ 1/2 → assign_stage initial_pd current_pd = 1) ∧
    (current_pd ≤ 1/2 → ¬(0 < initial_pd ∧ 3 < current_pd / initial_pd) →
      assign_stage initial_pd current_pd = 1) := by
  unfold assign_stage
  refine ⟨fun h1 => if_pos h1, fun h1 h2 h3 => ?_, fun h1 h2 h3 => ?_,
    fun h1 => ?_, fun h1 h2 => ?_, fun h1 h2 => ?_⟩
  · rw [if_neg (by linarith), if_pos ⟨h2, h3⟩]
  · rw [if_neg (by linarith), if_neg (by rw [h3]; exact fun hc => lt_irrefl 3 hc.2)]
  · subst h1
    rw [if_neg (by norm_num)]
    split_ifs <;> simp
  · subst h1
    rw [if_neg (by linarith), if_neg (by simp)]
  · rw [if_neg (by linarith), if_neg h2]

/-- Witness for C1 at concrete inputs. -/
theorem C1_witness :
    assign_stage (1/10) (6/10) = 3 ∧ assign_stage (1/10) (4/10) = 2 ∧
      assign_stage (1/10) (3/10) = 1 :=
  ⟨(C1_assign_stage_rules (1/10) (6/10)).1 (by norm_num),
   (C1_assign_stage_rules (1/10) (4/10)).2.1 (by norm_num) (by norm_num) (by norm_num),
   (C1_assign_stage_rules (1/10) (3/10)).2.2.1 (by norm_num) (by norm_num) (by norm_num)⟩

/-- Claim C5: golden values — the Stage-1 formula gives exactly 900.00 on
the documented example for any maturity and discount rate, and the
Stage-3 one-year example gives exactly 26213.59. -/
theorem C5_golden_values :
    (∀ (my : ℤ) (eir : ℚ), calculate_ecl 1 (2/100) (45/100) 100000 my eir 1 = 900) ∧
    calculate_ecl 3 (6/10) (45/100) 100000 1 (3/100) 1 = 2621359/100 := by
  constructor
  · intro my eir
    norm_num [calculate_ecl, round2, round_eq]
  · norm_num [calculate_ecl, lifetime_ecl, eclStep, round2, round_eq,
      show Int.toNat 1 = 1 from rfl, List.range_succ]

/-- Claim C10: `calculate_ecl` branches only on `stage == 1`; every other
stage value (0, 4, negatives, …) is computed with the Stage-2/3 lifetime
formula — the same value as stage 2 — rather than rejected. -/
theorem C10_no_stage_validation (stage : ℤ) (hs : stage ≠ 1) (current_pd lgd ead : ℚ)
    (maturity_years : ℤ) (eir pd_multiplier : ℚ) :
    calculate_ecl stage current_pd lgd ead maturity_years eir pd_multiplier =
      calculate_ecl 2 current_pd lgd ead maturity_years eir pd_multiplier := by
  unfold calculate_ecl
  rw [if_neg hs, if_neg (by norm_num)]

/-- Witness for C10 at the out-of-contract stage 0. -/
theorem C10_witness :
    calculate_ecl 0 (1/10) 1 100 1 0 1 = calculate_ecl 2 (1/10) 1 100 1 0 1 :=
  C10_no_stage_validation 0 (by norm_num) (1/10) 1 100 1 0 1

/-- Claim C2: `calculate_ecl` first clamps `pd_adj = min(current_pd *
pd_multiplier, 1)`; Stage 1 returns `round2 (pd_adj * lgd * ead)`; every
other stage returns the rounded sum over the loan lifetime of
`cum_survival * pd_adj * lgd * ead / (1+eir)^t`, where the survival factor
before year `t+1` is `(1 - pd_adj)^t` (survival starts at 1 and is
multiplied by `1 - pd_adj` after each yearly term is added). -/
theorem C2_calculate_ecl_formula (stage : ℤ) (current_pd lgd ead : ℚ)
    (maturity_years : ℤ) (eir pd_multiplier : ℚ) :
    calculate_ecl stage current_pd lgd ead maturity_years eir pd_multiplier =
      if stage = 1 then round2 (min (current_pd * pd_multiplier) 1 * lgd * ead)
      else round2 (∑ t in Finset.range maturity_years.toNat,
        (1 - min (current_pd * pd_multiplier) 1) ^ t * min (current_pd * pd_multiplier) 1
          * lgd * ead * (1 / (1 + eir) ^ (t + 1))) := by
  unfold calculate_ecl
  split_ifs with h
  · rfl
  · simp only [lifetime_ecl_closed]

/-- Claim C3: `calculate_weighted_ecl` is the rounded 0.30/0.40/0.30
weighting of the per-scenario ECLs at multipliers 0.80/1.00/1.50. -/
theorem C3_weighted_ecl (stage : ℤ) (current_pd lgd ead : ℚ) (maturity_years : ℤ)
    (eir : ℚ) :
    calculate_weighted_ecl stage current_pd lgd ead maturity_years eir =
      round2 (30/100 * calculate_ecl stage current_pd lgd ead maturity_years eir (80/100)
        + 40/100 * calculate_ecl stage current_pd lgd ead maturity_years eir 1
        + 30/100 * calculate_ecl stage current_pd lgd ead maturity_years eir (150/100)) := by
  simp only [calculate_weighted_ecl, SCENARIO_WEIGHTS, List.foldl,
    lookup_Optimistic, lookup_Base, lookup_Downturn, Option.getD_some]
  ring_nf

/-- Claim C4: `process_portfolio` is order-preserving and per-loan — one
result per input loan at the same index, carrying the eight loan
attributes unchanged and adding only the computed stage and weighted
ECL. -/
theorem C4_order_and_frame (p : List Loan) (i : ℕ) :
    (process_portfolio p).length = p.length ∧
    ((process_portfolio p)[i]?).map (fun r => (r.loan_id, r.sector, r.principal,
        r.initial_pd, r.current_pd, r.maturity_years, r.eir, r.lgd)) =
      (p[i]?).map (fun l => (l.loan_id, l.sector, l.principal,
        l.initial_pd, l.current_pd, l.maturity_years, l.eir, l.lgd)) ∧
    ((process_portfolio p)[i]?).map (fun r => (r.stage, r.ecl)) =
      (p[i]?).map (fun l => (assign_stage l.initial_pd l.current_pd,
        calculate_weighted_ecl (assign_stage l.initial_pd l.current_pd) l.current_pd
          l.lgd l.principal l.maturity_years l.eir)) := by
  refine ⟨by simp [process_portfolio], ?_, ?_⟩ <;>
  · simp only [process_portfolio, List.getElem?_map]
    cases p[i]? with
    | none => rfl
    | some l => simp [resultOfLoan]

/-- Claim C6: for a portfolio of loans valid per the data model,
`process_portfolio` yields only results with a stage in {1, 2, 3} and a
non-negative ECL. -/
theorem C6_valid_results (p : List Loan) (hp : ∀ l ∈ p, validLoan l)
    (r : ClassificationResult) (hr : r ∈ process_portfolio p) :
    (r.stage = 1 ∨ r.stage = 2 ∨ r.stage = 3) ∧ 0 ≤ r.ecl := by
  rcases List.mem_map.1 hr with ⟨l, hl, rfl⟩
  obtain ⟨h1, h2, h3, h4, h5, h6, h7, h8, h9⟩ := hp l hl
  refine ⟨assign_stage_cases _ _, ?_⟩
  exact calculate_weighted_ecl_nonneg _ _ (le_of_lt h4) h8 (le_of_lt h1) h7

/-- Witness for C6 at a concrete valid one-loan portfolio. -/
theorem C6_witness :
    ((resultOfLoan sampleLoan).stage = 1 ∨ (resultOfLoan sampleLoan).stage = 2 ∨
      (resultOfLoan sampleLoan).stage = 3) ∧ 0 ≤ (resultOfLoan sampleLoan).ecl :=
  C6_valid_results [sampleLoan]
    (by intro l hl
        rw [List.mem_singleton] at hl
        subst hl
        norm_num [validLoan, sampleLoan])
    (resultOfLoan sampleLoan) (by simp [process_portfolio])

/-- Counterexample to claim C7 as stated: with `maturity_years = 2`,
`current_pd = 0.1`, `lgd = 1`, `ead = 100`, `pd_multiplier = 1`, raising
the rate from `eir = 0` to `eir' = 10⁻⁶` leaves the returned (2-decimal
rounded) value unchanged at 19.00, so `calculate_ecl` does not strictly
decrease. -/
theorem C7_counterexample :
    (0:ℚ) ≤ 0 ∧ (0:ℚ) < 1/1000000 ∧
    ¬ calculate_ecl 2 (1/10) 1 100 2 (1/1000000) 1 < calculate_ecl 2 (1/10) 1 100 2 0 1 := by
  refine ⟨le_refl 0, by norm_num, ?_⟩
  norm_num [calculate_ecl, lifetime_ecl, eclStep, round2, round_eq,
    show Int.toNat 2 = 2 from rfl, List.range_succ]

/-- Claim C7 amended: for a Stage-2/3 loan with positive PD, LGD, EAD and
multiplier, increasing `eir` strictly decreases the unrounded lifetime
loss sum, and hence weakly decreases (`≤`) the 2-decimal-rounded value
returned by `calculate_ecl`; strictness can be lost to rounding. -/
theorem C7_amended_eir_antitone (stage : ℤ) (current_pd lgd ead : ℚ)
    (maturity_years : ℤ) (eir eir' pd_multiplier : ℚ) (hs : stage ≠ 1)
    (hm : 2 ≤ maturity_years) (hcp : 0 < current_pd) (hl : 0 < lgd) (he : 0 < ead)
    (hmu : 0 < pd_multiplier) (h0 : 0 ≤ eir) (hlt : eir < eir') :
    lifetime_ecl (min (current_pd * pd_multiplier) 1) lgd ead eir' maturity_years <
      lifetime_ecl (min (current_pd * pd_multiplier) 1) lgd ead eir maturity_years ∧
    calculate_ecl stage current_pd lgd ead maturity_years eir' pd_multiplier ≤
      calculate_ecl stage current_pd lgd ead maturity_years eir pd_multiplier := by
  set p := min (current_pd * pd_multiplier) 1 with hp
  have hp0 : 0 < p := lt_min (mul_pos hcp hmu) one_pos
  have hp1 : p ≤ 1 := min_le_right _ _
  have hpos : (0:ℚ) < 1 + eir := by linarith
  have hpos' : (0:ℚ) < 1 + eir' := by linarith
  have hrange : 0 < maturity_years.toNat := by omega
  have hstrict : lifetime_ecl p lgd ead eir' maturity_years <
      lifetime_ecl p lgd ead eir maturity_years := by
    rw [lifetime_ecl_closed, lifetime_ecl_closed]
    refine Finset.sum_lt_sum (fun t _ => ?_) ⟨0, Finset.mem_range.2 hrange, ?_⟩
    · have hc : (0:ℚ) ≤ (1 - p) ^ t * p * lgd * ead :=
        mul_nonneg (mul_nonneg (mul_nonneg (pow_nonneg (by linarith) t) hp0.le) hl.le)
          he.le
      have hpow : (1 + eir) ^ (t + 1) ≤ (1 + eir') ^ (t + 1) :=
        pow_le_pow_left₀ hpos.le (by linarith) _
      have hdiv : 1 / (1 + eir') ^ (t + 1) ≤ 1 / (1 + eir) ^ (t + 1) :=
        one_div_le_one_div_of_le (pow_pos hpos _) hpow
      exact mul_le_mul_of_nonneg_left hdiv hc
    · have hc : (0:ℚ) < (1 - p) ^ 0 * p * lgd * ead := by
        simpa using mul_pos (mul_pos hp0 hl) he
      have hdiv : 1 / (1 + eir') ^ (0 + 1) < 1 / (1 + eir) ^ (0 + 1) := by
        rw [pow_one, pow_one]
        exact one_div_lt_one_div_of_lt hpos (by linarith)
      exact mul_lt_mul_of_pos_left hdiv hc
  refine ⟨hstrict, ?_⟩
  unfold calculate_ecl
  rw [if_neg hs, if_neg hs]
  exact round2_mono hstrict.le

/-- Witness for the amended C7 at concrete inputs. -/
theorem C7_witness :
    lifetime_ecl (min ((1:ℚ)/10 * 1) 1) 1 100 1 2 <
      lifetime_ecl (min ((1:ℚ)/10 * 1) 1) 1 100 0 2 ∧
    calculate_ecl 2 (1/10) 1 100 2 1 1 ≤ calculate_ecl 2 (1/10) 1 100 2 0 1 :=
  C7_amended_eir_antitone 2 (1/10) 1 100 2 0 1 1 (by norm_num) (by norm_num)
    (by norm_num) (by norm_num) (by norm_num) (by norm_num) (by norm_num) (by norm_num)

/-- Claim C8: accumulating the three weighted scenario terms in any order
(any permutation of the scenario list) yields the same weighted ECL as
the insertion-order iteration of `calculate_weighted_ecl`. -/
theorem C8_iteration_order_irrelevant (stage : ℤ) (current_pd lgd ead : ℚ)
    (maturity_years : ℤ) (eir : ℚ) (l : List (String × ℚ))
    (hperm : l.Perm SCENARIO_WEIGHTS) :
    round2 (l.foldl (fun acc sw => acc + sw.2 * calculate_ecl stage current_pd lgd ead
        maturity_years eir ((PD_MULTIPLIERS.lookup sw.1).getD 0)) 0) =
      calculate_weighted_ecl stage current_pd lgd ead maturity_years eir := by
  unfold calculate_weighted_ecl
  rw [foldl_add_eq, foldl_add_eq]
  congr 1
  simp only [zero_add]
  exact List.Perm.sum_eq (hperm.map _)

/-- Witness for C8: swapping the first two scenarios at concrete inputs. -/
theorem C8_witness :
    round2 (([(("Base":String), (40:ℚ)/100), ("Optimistic", 30/100),
        ("Downturn", 30/100)]).foldl
      (fun acc sw => acc + sw.2 * calculate_ecl 1 (1/10) (1/2) 1000 1 0
        ((PD_MULTIPLIERS.lookup sw.1).getD 0)) 0) =
      calculate_weighted_ecl 1 (1/10) (1/2) 1000 1 0 :=
  C8_iteration_order_irrelevant 1 (1/10) (1/2) 1000 1 0 _ (List.Perm.swap _ _ _)

/-- Counterexample to claim C9 as stated: under a scenario set whose
weights sum to 0.9 (invalid) but whose multipliers are complete, the
engine silently produces a per-loan result — no configuration error is
ever raised, because the code contains no scenario-set validation. -/
theorem C9_counterexample :
    (badWeights.map Prod.snd).sum ≠ 1 ∧
    (process_portfolio_with badWeights PD_MULTIPLIERS [sampleLoan]).isSome = true := by
  constructor
  · norm_num [badWeights]
  · rfl

/-- Claim C9 amended: the engine performs no scenario-set validation.
With weights that do not sum to 1 (and complete multipliers) it silently
computes a result for every loan; a scenario named in the weights but
missing its multiplier fails only via the lookup performed while the
first loan is processed — not as a configuration check before
processing — and for a nonempty portfolio no result list is returned. -/
theorem C9_amended_no_validation (p : List Loan) :
    (process_portfolio_with badWeights PD_MULTIPLIERS p).isSome = true ∧
    (p ≠ [] → process_portfolio_with SCENARIO_WEIGHTS missingMultipliers p = none) := by
  constructor
  · induction p with
    | nil => rfl
    | cons loan rest ih =>
      obtain ⟨rs, hrs⟩ := Option.isSome_iff_exists.mp ih
      simp only [process_portfolio_with, weighted_with_badWeights, Option.some_bind, hrs]
      rfl
  · intro hne
    cases p with
    | nil => exact absurd rfl hne
    | cons loan rest =>
      simp only [process_portfolio_with, weighted_with_missing, Option.none_bind]

/-- Witness for the amended C9 at a concrete one-loan portfolio. -/
theorem C9_witness :
    (process_portfolio_with badWeights PD_MULTIPLIERS [sampleLoan]).isSome = true ∧
    process_portfolio_with SCENARIO_WEIGHTS missingMultipliers [sampleLoan] = none :=
  ⟨(C9_amended_no_validation [sampleLoan]).1,
   (C9_amended_no_validation [sampleLoan]).2 (List.cons_ne_nil _ _)⟩

end IFRS9
